import Mathlib

/-!
Verification of the maze-solver core of `golangchallenge-gc6`
(`src/commands/icarus.go`): the solver state (visited junctions, passage
counters), the decision procedure `chooseDir` / `chooseDirWeighted`, the
movement step `moveDir`, and the protocol client `awake` / `Move` /
`ToReply`, embedded shallowly as pure Lean functions.  Effects are made
explicit: the HTTP layer is a parameter of type `Except String (List Nat)`
(an error or a response body), the JSON decoder a parameter of type
`List Nat → Option Reply`, and the process-wide random source a parameter
supplying the slice returned by `rand.Perm(4)`.  Unbounded Go loops are
embedded with explicit fuel.
-/

namespace GC6

/-- Modelled from the spec: the `Coordinate` value type of the `mazelib`
package (the package is not among the sources): two signed integers (x, y),
compared by structural equality, used as a key into knowledge-base
mappings. -/
structure Coordinate where
  X : Int
  Y : Int
deriving DecidableEq, Repr

/-- Modelled from the spec: the `Survey` value type of the `mazelib`
package: four independent booleans, one per direction, each meaning a wall
blocks movement in this direction from the current cell. -/
structure Survey where
  Top : Bool
  Right : Bool
  Bottom : Bool
  Left : Bool
deriving DecidableEq, Repr

/-- The zero value of `Survey`: all four wall flags false (walls open). -/
def zeroSurvey : Survey := ⟨false, false, false, false⟩

/-- A survey with all four wall flags true: a fully walled cell. -/
def allWalls : Survey := ⟨true, true, true, true⟩

/-- Modelled from the spec: the `Reply` wire type of the `mazelib` package:
the survey of the new or current cell, a victory flag and a human-readable
message. -/
structure Reply where
  survey : Survey
  Victory : Bool
  Message : String
deriving DecidableEq, Repr

/-- The zero value of `Reply`, produced when JSON unmarshalling fails and
leaves the freshly allocated struct untouched. -/
def zeroReply : Reply := ⟨zeroSurvey, false, ""⟩

/-- Modelled from the spec: the canonical direction constant `mazelib.N`.
The Decision Engine computes a direction as `d + 1` for `d` in `0..3`, so
the four canonical constants are 1, 2, 3, 4. -/
def N : Int := 1

/-- Modelled from the spec: the canonical direction constant `mazelib.S`. -/
def S : Int := 2

/-- Modelled from the spec: the canonical direction constant `mazelib.E`. -/
def E : Int := 3

/-- Modelled from the spec: the canonical direction constant `mazelib.W`. -/
def W : Int := 4

/-- Shallow model of the Go `error` values the protocol client produces:
`victory` is the distinguished `mazelib.ErrVictory` sentinel; `msg s` is an
error freshly created by `errors.New(s)` at a call site, which is never
pointer-equal to `ErrVictory`; `transport e` is an error surfaced by the
HTTP layer inside `makeRequest`. -/
inductive GoError where
  | victory : GoError
  | msg : String → GoError
  | transport : String → GoError
deriving DecidableEq, Repr

/-- `ToReply` from icarus.go: unmarshals the response body into a `Reply`,
ignoring the unmarshal error, so a failed decode returns the zero-value
`Reply` untouched.  The JSON decoder itself is abstracted as the parameter
`decode` (`none` models an unmarshal error). -/
def ToReply (decode : List Nat → Option Reply) (input : List Nat) : Reply :=
  match decode input with
  | some r => r
  | none => zeroReply

/-- `awake` from icarus.go: calls `makeRequest("/awake")`, prints (but
otherwise ignores) a transport error — in which case `contents` is the nil
slice — and returns `ToReply(contents).Survey`. -/
def awake (host : Except String (List Nat)) (decode : List Nat → Option Reply) :
    Survey :=
  match host with
  | .ok contents => (ToReply decode contents).survey
  | .error _ => (ToReply decode []).survey

/-- The direction-string guard at the head of `Move` in icarus.go. -/
def validDirection (direction : String) : Bool :=
  direction == "left" || direction == "right" || direction == "up" ||
    direction == "down"

/-- `Move` from icarus.go: for a canonical direction string, issues
`GET /move/{direction}`; a transport failure is returned as is; otherwise
the body is decoded with `ToReply` and the call returns
`(rep.Survey, mazelib.ErrVictory)` when `rep.Victory` is set and
`(rep.Survey, errors.New(rep.Message))` when it is not.  A non-canonical
string yields `errors.New("invalid direction")`. -/
def Move (direction : String) (host : Except String (List Nat))
    (decode : List Nat → Option Reply) : Survey × Option GoError :=
  if validDirection direction then
    match host with
    | .error e => (zeroSurvey, some (GoError.transport e))
    | .ok contents =>
      let rep := ToReply decode contents
      if rep.Victory then (rep.survey, some GoError.victory)
      else (rep.survey, some (GoError.msg rep.Message))
  else
    (zeroSurvey, some (GoError.msg "invalid direction"))

/-- The solver state from icarus.go: current coordinate, visited junctions
and the two passage-counter maps.  Go maps returning zero values on absent
keys are embedded as total functions. -/
structure Solver where
  coord : Coordinate
  junctions : Coordinate → Bool
  horizPassages : Coordinate → Int
  vertPassages : Coordinate → Int

/-- Selector for the two passage-counter maps of the solver, standing in
for the Go variable `passageMap` that aliases one of them. -/
inductive PassageMap where
  | horiz : PassageMap
  | vert : PassageMap
deriving DecidableEq, Repr

/-- Read a passage counter through the selected map. -/
def Solver.getPassage (s : Solver) (pm : PassageMap) (k : Coordinate) : Int :=
  match pm with
  | .horiz => s.horizPassages k
  | .vert => s.vertPassages k

/-- Write a passage counter through the selected map. -/
def Solver.setPassage (s : Solver) (pm : PassageMap) (k : Coordinate) (v : Int) :
    Solver :=
  match pm with
  | .horiz =>
    { s with horizPassages := fun c => if c = k then v else s.horizPassages c }
  | .vert =>
    { s with vertPassages := fun c => if c = k then v else s.vertPassages c }

/-- The `switch dir` at the head of `moveDir` in icarus.go: for a canonical
direction it yields `(newCoord, passage, passageMap, dirStr)`; `none` models
the `default` branch `panic("dir out of range")`. -/
def moveDirParams (c : Coordinate) (dir : Int) :
    Option (Coordinate × Coordinate × PassageMap × String) :=
  if dir = N then
    some (⟨c.X, c.Y - 1⟩, ⟨c.X, c.Y - 1⟩, PassageMap.vert, "up")
  else if dir = S then
    some (⟨c.X, c.Y + 1⟩, c, PassageMap.vert, "down")
  else if dir = E then
    some (⟨c.X + 1, c.Y⟩, c, PassageMap.horiz, "right")
  else if dir = W then
    some (⟨c.X - 1, c.Y⟩, ⟨c.X - 1, c.Y⟩, PassageMap.horiz, "left")
  else
    none

/-- The solver post-state of the physical-move branch of `moveDir`: the
statements `s.coord = newCoord; s.junctions[newCoord] = true;
passageMap[passage]++` executed before `Move` is called. -/
def moveDirPost (s : Solver) (newCoord passage : Coordinate)
    (pm : PassageMap) : Solver :=
  { s.setPassage pm passage (s.getPassage pm passage + 1) with
    coord := newCoord,
    junctions := fun c => if c = newCoord then true else s.junctions c }

/-- `moveDir` from icarus.go.  `none` models the `panic` on a non-canonical
direction.  Otherwise the result is the post-state solver, the move request
issued to the host (`none` when the dead-end-avoidance branch suppresses
the physical move, `some dirStr` for `GET /move/{dirStr}`), and the
`(Survey, error)` pair the Go function returns: `(sv, nil)` on the
dead-end branch, the result of `Move(dirStr)` on the physical branch.
On the physical branch the counter increment, junction marking and
coordinate update all happen before `Move` is consulted, so the post-state
solver does not depend on `host` or `decode`. -/
def moveDir (s : Solver) (sv : Survey) (dir : Int)
    (host : Except String (List Nat)) (decode : List Nat → Option Reply) :
    Option (Solver × Option String × Survey × Option GoError) :=
  match moveDirParams s.coord dir with
  | none => none
  | some (newCoord, passage, pm, dirStr) =>
    if s.getPassage pm passage = 0 ∧ s.junctions newCoord = true then
      some (s.setPassage pm passage (s.getPassage pm passage + 2),
            none, sv, none)
    else
      some (moveDirPost s newCoord passage pm,
            some dirStr, Move dirStr host decode)

/-- The `switch dir` inside `chooseDirWeighted` in icarus.go: the wall flag
and passage counter consulted for direction `dir`.  The Go locals
`var wall bool; var passage int` start at their zero values and are left
unchanged when no case matches, hence the `(false, 0)` fallback. -/
def dirWall (s : Solver) (sv : Survey) (dir : Int) : Bool × Int :=
  if dir = N then (sv.Top, s.vertPassages ⟨s.coord.X, s.coord.Y - 1⟩)
  else if dir = S then (sv.Bottom, s.vertPassages s.coord)
  else if dir = E then (sv.Right, s.horizPassages s.coord)
  else if dir = W then (sv.Left, s.horizPassages ⟨s.coord.X - 1, s.coord.Y⟩)
  else (false, 0)

/-- The loop body of `chooseDirWeighted`, iterating over the list of values
the Go `range` statement binds to `d`: each `d` is turned into the direction
`d + 1` and accepted as soon as its wall flag is false and its passage
counter is at most `w`. -/
def chooseDirWeightedLoop (s : Solver) (sv : Survey) (w : Int) :
    List Nat → Option Int
  | [] => none
  | d :: rest =>
    let dir : Int := (d : Int) + 1
    if (dirWall s sv dir).1 = false ∧ (dirWall s sv dir).2 ≤ w then some dir
    else chooseDirWeightedLoop s sv w rest

/-- `chooseDirWeighted` from icarus.go.  `perm` models the slice returned by
`rand.Perm(4)`.  The Go statement `for d := range rand.Perm(4)` binds `d` to
the successive INDICES `0, 1, ..., len(perm)-1` of that slice, not to its
elements, so the loop runs over `List.range perm.length` and the elements of
`perm` are never read.  `none` models `(0, errors.New("not found"))`. -/
def chooseDirWeighted (s : Solver) (sv : Survey) (w : Int) (perm : List Nat) :
    Option Int :=
  chooseDirWeightedLoop s sv w (List.range perm.length)

/-- The widening-threshold loop of `chooseDir` in icarus.go, instrumented
with explicit fuel because the Go loop `for w := 0; true; w++` has no bound:
`none` means the Go loop has not returned within `fuel` iterations.
`perms w` is the slice drawn by `rand.Perm(4)` at threshold level `w`.  The
result pairs the chosen direction with the threshold at which it was
accepted. -/
def chooseDirAux (s : Solver) (sv : Survey) (perms : Nat → List Nat) :
    Nat → Nat → Option (Int × Nat)
  | _, 0 => none
  | w, fuel + 1 =>
    match chooseDirWeighted s sv (w : Int) (perms w) with
    | some d => some (d, w)
    | none => chooseDirAux s sv perms (w + 1) fuel

/-- `chooseDir` from icarus.go: the widening-threshold loop starting at
`w = 0`, returning only the chosen direction. -/
def chooseDir (s : Solver) (sv : Survey) (perms : Nat → List Nat)
    (fuel : Nat) : Option Int :=
  (chooseDirAux s sv perms 0 fuel).map Prod.fst

/-- The session loop of `solveMaze` in icarus.go, abstracted over the
sequence of errors returned by the successive `moveDir` calls (`errs i` is
the error of iteration `i`) and instrumented with fuel.  The loop body
compares the error against `mazelib.ErrVictory` and returns exactly then;
the result is the index of the iteration at which the Go loop returned, or
`none` when victory did not occur within `fuel` iterations. -/
def solveLoopAux (errs : Nat → Option GoError) : Nat → Nat → Option Nat
  | _, 0 => none
  | i, fuel + 1 =>
    if errs i = some GoError.victory then some i
    else solveLoopAux errs (i + 1) fuel

/-- The initial solver of `solveMaze`: zero-value coordinate (0,0), empty
passage maps, and the origin pre-marked as a visited junction. -/
def initialSolver : Solver :=
  { coord := ⟨0, 0⟩,
    junctions := fun c => decide (c = (⟨0, 0⟩ : Coordinate)),
    horizPassages := fun _ => 0,
    vertPassages := fun _ => 0 }

/-- A solver used as a concrete test state: at the origin, with the east
neighbour (1,0) already visited and all passage counters zero. -/
def solverEastVisited : Solver :=
  { coord := ⟨0, 0⟩,
    junctions := fun c => decide (c = (⟨1, 0⟩ : Coordinate)),
    horizPassages := fun _ => 0,
    vertPassages := fun _ => 0 }

/-- The survey of the spec's deterministic scenario: only the top passage
open. -/
def surveyUpOnly : Survey := ⟨false, true, true, true⟩

lemma dirWall_allWalls_wall (s : Solver) (dir : Int) (h1 : 1 ≤ dir)
    (h4 : dir ≤ 4) : (dirWall s allWalls dir).1 = true := by
  have : dir = 1 ∨ dir = 2 ∨ dir = 3 ∨ dir = 4 := by omega
  rcases this with h | h | h | h <;> subst h <;>
    simp [dirWall, allWalls, N, S, E, W]

lemma chooseDirWeightedLoop_allWalls (s : Solver) (w : Int) (l : List Nat)
    (hl : ∀ d ∈ l, d < 4) : chooseDirWeightedLoop s allWalls w l = none := by
  induction l with
  | nil => rfl
  | cons d rest ih =>
    have hd : d < 4 := hl d (List.mem_cons_self d rest)
    have hwall : (dirWall s allWalls ((d : Int) + 1)).1 = true := by
      apply dirWall_allWalls_wall
      · omega
      · have : (d : Int) ≤ 3 := by exact_mod_cast Nat.lt_succ_iff.mp hd
        omega
    simp only [chooseDirWeightedLoop, hwall]
    simp only [Bool.true_eq_false, false_and, if_false]
    exact ih fun x hx => hl x (List.mem_cons_of_mem d hx)

lemma chooseDirWeighted_allWalls (s : Solver) (w : Int) (perm : List Nat)
    (hlen : perm.length = 4) : chooseDirWeighted s allWalls w perm = none := by
  unfold chooseDirWeighted
  rw [hlen]
  exact chooseDirWeightedLoop_allWalls s w (List.range 4)
    (fun d hd => List.mem_range.mp hd)

lemma chooseDirWeightedLoop_sound (s : Solver) (sv : Survey) (w : Int)
    (l : List Nat) (dir : Int)
    (h : chooseDirWeightedLoop s sv w l = some dir) :
    (dirWall s sv dir).1 = false ∧ (dirWall s sv dir).2 ≤ w ∧
      ∃ d ∈ l, dir = (d : Int) + 1 := by
  induction l with
  | nil => simp [chooseDirWeightedLoop] at h
  | cons d rest ih =>
    by_cases hc : (dirWall s sv ((d : Int) + 1)).1 = false ∧
        (dirWall s sv ((d : Int) + 1)).2 ≤ w
    · simp only [chooseDirWeightedLoop, if_pos hc, Option.some.injEq] at h
      subst h
      exact ⟨hc.1, hc.2, d, List.mem_cons_self d rest, rfl⟩
    · simp only [chooseDirWeightedLoop, if_neg hc] at h
      obtain ⟨h1, h2, d2, hd2, he⟩ := ih h
      exact ⟨h1, h2, d2, List.mem_cons_of_mem d hd2, he⟩

lemma chooseDirWeighted_sound (s : Solver) (sv : Survey) (w : Int)
    (perm : List Nat) (dir : Int)
    (h : chooseDirWeighted s sv w perm = some dir) :
    (dirWall s sv dir).1 = false ∧ (dirWall s sv dir).2 ≤ w ∧
      ∃ d < perm.length, dir = (d : Int) + 1 := by
  obtain ⟨h1, h2, d, hd, he⟩ := chooseDirWeightedLoop_sound s sv w _ dir h
  exact ⟨h1, h2, d, List.mem_range.mp hd, he⟩

lemma chooseDirAux_sound (s : Solver) (sv : Survey) (perms : Nat → List Nat)
    (w0 fuel : Nat) (dir : Int) (w : Nat)
    (h : chooseDirAux s sv perms w0 fuel = some (dir, w)) :
    chooseDirWeighted s sv (w : Int) (perms w) = some dir := by
  induction fuel generalizing w0 with
  | zero => simp [chooseDirAux] at h
  | succ n ih =>
    rw [chooseDirAux] at h
    cases hc : chooseDirWeighted s sv (w0 : Int) (perms w0) with
    | some d =>
      rw [hc] at h
      simp only [Option.some.injEq, Prod.mk.injEq] at h
      obtain ⟨h1, h2⟩ := h
      subst h1
      subst h2
      exact hc
    | none =>
      rw [hc] at h
      exact ih (w0 + 1) h

/-- C1: claimed — `chooseDirWeighted` examines the four directions in a
fresh random permutation order each call, varying with the random source.
In fact the Go statement `for d := range rand.Perm(4)` iterates over the
indices of the permutation slice, never its elements, so the result of
`chooseDirWeighted` is identical for any two permutations of the same
length: the examination order is the fixed sequence N, S, E, W regardless
of the random draw. -/
theorem chooseDirWeighted_ignores_permutation (s : Solver) (sv : Survey)
    (w : Int) (p1 p2 : List Nat) (h : p1.length = p2.length) :
    chooseDirWeighted s sv w p1 = chooseDirWeighted s sv w p2 := by
  unfold chooseDirWeighted
  rw [h]

/-- Witness for C1: the identity permutation and its reversal produce the
same choice. -/
theorem chooseDirWeighted_ignores_permutation_witness :
    chooseDirWeighted initialSolver surveyUpOnly 0 [0, 1, 2, 3] =
      chooseDirWeighted initialSolver surveyUpOnly 0 [3, 2, 1, 0] :=
  chooseDirWeighted_ignores_permutation initialSolver surveyUpOnly 0
    [0, 1, 2, 3] [3, 2, 1, 0] (by decide)

/-- C2: claimed — on a fully walled survey the engine aborts rather than
retrying indefinitely, i.e. `chooseDir` terminates on every input.  In
fact the loop `for w := 0; true; w++` in `chooseDir` never exits when
every direction is walled: `chooseDirWeighted` fails at every threshold,
so for every amount of fuel the embedded loop is still running and the
`panic("fully closed cell?")` after the loop is unreachable. -/
theorem chooseDir_allWalls_never_returns (s : Solver)
    (perms : Nat → List Nat) (hlen : ∀ i, (perms i).length = 4)
    (w fuel : Nat) : chooseDirAux s allWalls perms w fuel = none := by
  induction fuel generalizing w with
  | zero => rfl
  | succ n ih =>
    rw [chooseDirAux]
    rw [chooseDirWeighted_allWalls s (w : Int) (perms w) (hlen w)]
    exact ih (w + 1)

/-- Witness for C2: with the identity permutation at every level, five
rounds of fuel starting at threshold 0 still yield no direction on a fully
walled survey. -/
theorem chooseDir_allWalls_never_returns_witness :
    chooseDirAux initialSolver allWalls (fun _ => [0, 1, 2, 3]) 0 5 = none :=
  chooseDir_allWalls_never_returns initialSolver (fun _ => [0, 1, 2, 3])
    (fun _ => rfl) 0 5

lemma dirWall_N (s : Solver) (sv : Survey) :
    dirWall s sv N = (sv.Top, s.vertPassages ⟨s.coord.X, s.coord.Y - 1⟩) := by
  simp [dirWall, N]

lemma dirWall_S (s : Solver) (sv : Survey) :
    dirWall s sv S = (sv.Bottom, s.vertPassages s.coord) := by
  norm_num [dirWall, N, S]

lemma dirWall_E (s : Solver) (sv : Survey) :
    dirWall s sv E = (sv.Right, s.horizPassages s.coord) := by
  norm_num [dirWall, N, S, E]

lemma dirWall_W (s : Solver) (sv : Survey) :
    dirWall s sv W =
      (sv.Left, s.horizPassages ⟨s.coord.X - 1, s.coord.Y⟩) := by
  norm_num [dirWall, N, S, E, W]

/-- C3: any direction the Decision Engine returns was accepted with its
wall flag false in the given survey and its passage counter at most the
accepting threshold; in particular, for each canonical direction, the
corresponding survey flag is false. -/
theorem chooseDir_selects_open_direction (s : Solver) (sv : Survey)
    (perms : Nat → List Nat) (fuel : Nat) (dir : Int) (w : Nat)
    (h : chooseDirAux s sv perms 0 fuel = some (dir, w)) :
    chooseDir s sv perms fuel = some dir ∧
    (dirWall s sv dir).1 = false ∧ (dirWall s sv dir).2 ≤ (w : Int) ∧
    (dir = N → sv.Top = false) ∧ (dir = S → sv.Bottom = false) ∧
    (dir = E → sv.Right = false) ∧ (dir = W → sv.Left = false) := by
  have hw := chooseDirAux_sound s sv perms 0 fuel dir w h
  obtain ⟨h1, h2, _⟩ := chooseDirWeighted_sound s sv (w : Int) (perms w) dir hw
  refine ⟨by simp [chooseDir, h], h1, h2, ?_, ?_, ?_, ?_⟩ <;> intro hd <;>
    subst hd
  · rw [dirWall_N] at h1
    exact h1
  · rw [dirWall_S] at h1
    exact h1
  · rw [dirWall_E] at h1
    exact h1
  · rw [dirWall_W] at h1
    exact h1

/-- Witness for C3: on the spec's scenario survey (only the top open) the
engine picks direction N at threshold 0 and the top wall flag is indeed
false. -/
theorem chooseDir_selects_open_direction_witness :
    chooseDir initialSolver surveyUpOnly (fun _ => [0, 1, 2, 3]) 1 =
      some 1 ∧
    (dirWall initialSolver surveyUpOnly 1).1 = false ∧
    (dirWall initialSolver surveyUpOnly 1).2 ≤ (0 : Int) ∧
    surveyUpOnly.Top = false := by
  have h := chooseDir_selects_open_direction initialSolver surveyUpOnly
    (fun _ => [0, 1, 2, 3]) 1 1 0 (by decide)
  exact ⟨h.1, h.2.1, h.2.2.1, h.2.2.2.1 rfl⟩

lemma moveDirParams_isSome_of_canonical (c : Coordinate) (dir : Int)
    (h : dir = N ∨ dir = S ∨ dir = E ∨ dir = W) :
    (moveDirParams c dir).isSome = true := by
  rcases h with h | h | h | h <;> subst h <;>
    norm_num [moveDirParams, N, S, E, W]

lemma moveDir_isSome (s2 : Solver) (sv2 : Survey) (dir : Int)
    (host : Except String (List Nat)) (decode : List Nat → Option Reply)
    (h : (moveDirParams s2.coord dir).isSome = true) :
    (moveDir s2 sv2 dir host decode).isSome = true := by
  unfold moveDir
  cases hp : moveDirParams s2.coord dir with
  | none => rw [hp] at h; simp at h
  | some q =>
    obtain ⟨nc, p, pm, dstr⟩ := q
    by_cases hc : s2.getPassage pm p = 0 ∧ s2.junctions nc = true
    · simp [hc]
    · simp [hc]

/-- C8: the Decision Engine only emits canonical directions: every value
`chooseDir` returns is one of N, S, E, W, and on any such direction
`moveDir` never reaches its `panic("dir out of range")` default branch
(the embedding returns `some` rather than the `none` that models the
panic). -/
theorem chooseDir_returns_canonical (s : Solver) (sv : Survey)
    (perms : Nat → List Nat) (fuel : Nat) (dir : Int)
    (hlen : ∀ i, (perms i).length = 4)
    (h : chooseDir s sv perms fuel = some dir) :
    (dir = N ∨ dir = S ∨ dir = E ∨ dir = W) ∧
    ∀ (s2 : Solver) (sv2 : Survey) (host : Except String (List Nat))
      (decode : List Nat → Option Reply),
      (moveDir s2 sv2 dir host decode).isSome = true := by
  rw [chooseDir] at h
  cases haux : chooseDirAux s sv perms 0 fuel with
  | none => rw [haux] at h; simp at h
  | some q =>
    rw [haux] at h
    simp only [Option.map_some', Option.some.injEq] at h
    obtain ⟨d, w⟩ := q
    simp only at h
    subst h
    have hw := chooseDirAux_sound s sv perms 0 fuel d w haux
    obtain ⟨-, -, k, hk, he⟩ :=
      chooseDirWeighted_sound s sv (w : Int) (perms w) d hw
    rw [hlen w] at hk
    have hcanon : d = N ∨ d = S ∨ d = E ∨ d = W := by
      have hk3 : (k : Int) ≤ 3 := by exact_mod_cast Nat.lt_succ_iff.mp hk
      have hk0 : (0 : Int) ≤ (k : Int) := Int.natCast_nonneg k
      rw [N, S, E, W]
      omega
    exact ⟨hcanon, fun s2 sv2 host decode =>
      moveDir_isSome s2 sv2 d host decode
        (moveDirParams_isSome_of_canonical s2.coord d hcanon)⟩

/-- Witness for C8: the direction chosen in the deterministic scenario is
canonical and `moveDir` accepts it from the initial solver state. -/
theorem chooseDir_returns_canonical_witness :
    ((1 : Int) = N ∨ (1 : Int) = S ∨ (1 : Int) = E ∨ (1 : Int) = W) ∧
    (moveDir initialSolver surveyUpOnly 1 (Except.ok [])
      (fun _ => none)).isSome = true := by
  have h := chooseDir_returns_canonical initialSolver surveyUpOnly
    (fun _ => [0, 1, 2, 3]) 1 1 (fun _ => rfl) (by decide)
  exact ⟨h.1, h.2 initialSolver surveyUpOnly (Except.ok []) (fun _ => none)⟩

lemma getPassage_setPassage_same (s : Solver) (pm : PassageMap)
    (k : Coordinate) (v : Int) : (s.setPassage pm k v).getPassage pm k = v := by
  cases pm <;> simp [Solver.getPassage, Solver.setPassage]

lemma getPassage_setPassage_other (s : Solver) (pm : PassageMap)
    (k : Coordinate) (v : Int) (k2 : Coordinate) (h : k2 ≠ k) :
    (s.setPassage pm k v).getPassage pm k2 = s.getPassage pm k2 := by
  cases pm <;> simp [Solver.getPassage, Solver.setPassage, h]

lemma setPassage_coord (s : Solver) (pm : PassageMap) (k : Coordinate)
    (v : Int) : (s.setPassage pm k v).coord = s.coord := by
  cases pm <;> rfl

lemma setPassage_junctions (s : Solver) (pm : PassageMap) (k : Coordinate)
    (v : Int) : (s.setPassage pm k v).junctions = s.junctions := by
  cases pm <;> rfl

/-- C4: when the chosen passage's counter is 0 and the target cell is
already a visited junction, `moveDir` takes the dead-end-avoidance branch:
it increments that passage counter by exactly 2, issues no move request to
the host, returns the input survey unchanged with a nil outcome, and
leaves the coordinate, the visited set and every other counter of that map
untouched. -/
theorem moveDir_dead_end_avoidance (s : Solver) (sv : Survey) (dir : Int)
    (nc p : Coordinate) (pm : PassageMap) (dstr : String)
    (host : Except String (List Nat)) (decode : List Nat → Option Reply)
    (hp : moveDirParams s.coord dir = some (nc, p, pm, dstr))
    (h0 : s.getPassage pm p = 0) (hj : s.junctions nc = true) :
    moveDir s sv dir host decode =
      some (s.setPassage pm p (s.getPassage pm p + 2), none, sv, none) ∧
    (s.setPassage pm p (s.getPassage pm p + 2)).getPassage pm p =
      s.getPassage pm p + 2 ∧
    (s.setPassage pm p (s.getPassage pm p + 2)).coord = s.coord ∧
    (s.setPassage pm p (s.getPassage pm p + 2)).junctions = s.junctions ∧
    (∀ k, k ≠ p →
      (s.setPassage pm p (s.getPassage pm p + 2)).getPassage pm k =
        s.getPassage pm k) := by
  refine ⟨?_, getPassage_setPassage_same s pm p _, setPassage_coord s pm p _,
    setPassage_junctions s pm p _,
    fun k hk => getPassage_setPassage_other s pm p _ k hk⟩
  unfold moveDir
  rw [hp]
  dsimp only
  rw [if_pos ⟨h0, hj⟩]

/-- Witness for C4: from the origin with the east neighbour (1,0) already
visited and a zero counter, moving east performs no host request, returns
the input survey with a nil outcome, and sets the shared horizontal
counter at (0,0) to 2. -/
theorem moveDir_dead_end_avoidance_witness :
    moveDir solverEastVisited zeroSurvey 3 (Except.ok []) (fun _ => none) =
      some (solverEastVisited.setPassage PassageMap.horiz ⟨0, 0⟩
              (solverEastVisited.getPassage PassageMap.horiz ⟨0, 0⟩ + 2),
            none, zeroSurvey, none) ∧
    (solverEastVisited.setPassage PassageMap.horiz ⟨0, 0⟩
        (solverEastVisited.getPassage PassageMap.horiz ⟨0, 0⟩ + 2)).getPassage
      PassageMap.horiz ⟨0, 0⟩ =
      solverEastVisited.getPassage PassageMap.horiz ⟨0, 0⟩ + 2 ∧
    (solverEastVisited.setPassage PassageMap.horiz ⟨0, 0⟩
        (solverEastVisited.getPassage PassageMap.horiz ⟨0, 0⟩ + 2)).coord =
      solverEastVisited.coord := by
  have h := moveDir_dead_end_avoidance solverEastVisited zeroSurvey 3
    ⟨1, 0⟩ ⟨0, 0⟩ PassageMap.horiz "right" (Except.ok []) (fun _ => none)
    (by decide) rfl (by decide)
  exact ⟨h.1, h.2.1, h.2.2.1⟩

/-- C5: on the physical-move branch (dead-end avoidance not triggered),
the knowledge base is updated before the host call: the chosen passage's
counter is incremented by exactly 1, the new cell is marked visited, the
current coordinate becomes the new cell, all other junctions and counters
of that map are untouched — and the post-state solver `moveDirPost` is the
same fixed term for every `host` response and every decode result of the
subsequent `Move` call, including failures. -/
theorem moveDir_updates_before_host (s : Solver) (sv : Survey) (dir : Int)
    (nc p : Coordinate) (pm : PassageMap) (dstr : String)
    (host : Except String (List Nat)) (decode : List Nat → Option Reply)
    (hp : moveDirParams s.coord dir = some (nc, p, pm, dstr))
    (hnd : ¬(s.getPassage pm p = 0 ∧ s.junctions nc = true)) :
    moveDir s sv dir host decode =
      some (moveDirPost s nc p pm, some dstr, Move dstr host decode) ∧
    (moveDirPost s nc p pm).getPassage pm p = s.getPassage pm p + 1 ∧
    (moveDirPost s nc p pm).coord = nc ∧
    (moveDirPost s nc p pm).junctions nc = true ∧
    (∀ c, c ≠ nc → (moveDirPost s nc p pm).junctions c = s.junctions c) ∧
    (∀ k, k ≠ p →
      (moveDirPost s nc p pm).getPassage pm k = s.getPassage pm k) := by
  have hmain : moveDir s sv dir host decode =
      some (moveDirPost s nc p pm, some dstr, Move dstr host decode) := by
    unfold moveDir
    rw [hp]
    dsimp only
    rw [if_neg hnd]
  have hget : (moveDirPost s nc p pm).getPassage pm p =
      s.getPassage pm p + 1 := by
    cases pm <;>
      simp [moveDirPost, Solver.getPassage, Solver.setPassage]
  have hcoord : (moveDirPost s nc p pm).coord = nc := by
    cases pm <;> rfl
  have hjunc : (moveDirPost s nc p pm).junctions nc = true := by
    cases pm <;> simp [moveDirPost, Solver.setPassage]
  have hjunc2 : ∀ c, c ≠ nc →
      (moveDirPost s nc p pm).junctions c = s.junctions c := by
    intro c hc
    cases pm <;> simp [moveDirPost, Solver.setPassage, hc]
  have hget2 : ∀ k, k ≠ p →
      (moveDirPost s nc p pm).getPassage pm k = s.getPassage pm k := by
    intro k hk
    cases pm <;>
      simp [moveDirPost, Solver.getPassage, Solver.setPassage, hk]
  exact ⟨hmain, hget, hcoord, hjunc, hjunc2, hget2⟩

/-- Witness for C5: from the initial solver (east neighbour unvisited),
moving east issues the request "right", yields the outcome of `Move`, and
the post-state has counter 1 at the shared horizontal key (0,0),
coordinate (1,0) and (1,0) marked visited. -/
theorem moveDir_updates_before_host_witness :
    moveDir initialSolver zeroSurvey 3 (Except.error "refused")
        (fun _ => none) =
      some (moveDirPost initialSolver ⟨1, 0⟩ ⟨0, 0⟩ PassageMap.horiz,
            some "right",
            Move "right" (Except.error "refused") (fun _ => none)) ∧
    (moveDirPost initialSolver ⟨1, 0⟩ ⟨0, 0⟩ PassageMap.horiz).getPassage
        PassageMap.horiz ⟨0, 0⟩ =
      initialSolver.getPassage PassageMap.horiz ⟨0, 0⟩ + 1 ∧
    (moveDirPost initialSolver ⟨1, 0⟩ ⟨0, 0⟩ PassageMap.horiz).coord =
      (⟨1, 0⟩ : Coordinate) ∧
    (moveDirPost initialSolver ⟨1, 0⟩ ⟨0, 0⟩
        PassageMap.horiz).junctions ⟨1, 0⟩ = true := by
  have h := moveDir_updates_before_host initialSolver zeroSurvey 3
    ⟨1, 0⟩ ⟨0, 0⟩ PassageMap.horiz "right" (Except.error "refused")
    (fun _ => none) (by decide) (by decide)
  exact ⟨h.1, h.2.1, h.2.2.1, h.2.2.2.1⟩

/-- C6: `Move` reports `mazelib.ErrVictory` exactly when the decoded host
reply has `Victory = true`; in the session loop of `solveMaze` a victory
error makes the loop return at that very iteration (no further move of the
attempt is issued), while any other error — including a host-reported move
rejection — makes the loop continue into the next iteration. -/
theorem move_victory_ends_session_loop (direction : String)
    (contents : List Nat) (decode : List Nat → Option Reply)
    (errs : Nat → Option GoError) (i fuel : Nat)
    (hv : validDirection direction = true) :
    ((Move direction (Except.ok contents) decode).2 = some GoError.victory ↔
      (ToReply decode contents).Victory = true) ∧
    (errs i = some GoError.victory →
      solveLoopAux errs i (fuel + 1) = some i) ∧
    (errs i ≠ some GoError.victory →
      solveLoopAux errs i (fuel + 1) = solveLoopAux errs (i + 1) fuel) := by
  refine ⟨?_, ?_, ?_⟩
  · by_cases hV : (ToReply decode contents).Victory = true
    · simp [Move, hv, hV]
    · simp [Move, hv, hV]
  · intro h
    simp [solveLoopAux, h]
  · intro h
    simp [solveLoopAux, h]

/-- Witness for C6: a reply with `Victory:true` makes `Move` report the
victory sentinel, and a loop whose first error is the victory sentinel
returns at iteration 0. -/
theorem move_victory_ends_session_loop_witness :
    (Move "up" (Except.ok [])
        (fun _ => some ⟨zeroSurvey, true, "You solved it!"⟩)).2 =
      some GoError.victory ∧
    solveLoopAux (fun _ => some GoError.victory) 0 4 = some 0 := by
  have h := move_victory_ends_session_loop "up" []
    (fun _ => some ⟨zeroSurvey, true, "You solved it!"⟩)
    (fun _ => some GoError.victory) 0 3 (by decide)
  exact ⟨h.1.mpr rfl, h.2.1 rfl⟩

/-- C7: each undirected passage has a single counter keyed by one fixed
adjacent cell.  Moving east from `c` and moving west from `(c.X+1, c.Y)`
both select the horizontal map with key `c` (the cell left of the edge);
moving south from `c` and moving north from `(c.X, c.Y+1)` both select the
vertical map with key `c` (the cell above the edge); and the counter reads
performed by `chooseDirWeighted` use exactly the same map and key as the
writes of `moveDir` for each direction. -/
theorem passage_counter_keys_shared (c : Coordinate) (s : Solver)
    (sv : Survey) :
    ((moveDirParams c E).map fun t => (t.2.1, t.2.2.1)) =
      some (c, PassageMap.horiz) ∧
    ((moveDirParams ⟨c.X + 1, c.Y⟩ W).map fun t => (t.2.1, t.2.2.1)) =
      some (c, PassageMap.horiz) ∧
    ((moveDirParams c S).map fun t => (t.2.1, t.2.2.1)) =
      some (c, PassageMap.vert) ∧
    ((moveDirParams ⟨c.X, c.Y + 1⟩ N).map fun t => (t.2.1, t.2.2.1)) =
      some (c, PassageMap.vert) ∧
    (dirWall { s with coord := c } sv E).2 = s.horizPassages c ∧
    (dirWall { s with coord := ⟨c.X + 1, c.Y⟩ } sv W).2 =
      s.horizPassages c ∧
    (dirWall { s with coord := c } sv S).2 = s.vertPassages c ∧
    (dirWall { s with coord := ⟨c.X, c.Y + 1⟩ } sv N).2 =
      s.vertPassages c := by
  obtain ⟨x, y⟩ := c
  refine ⟨?_, ?_, ?_, ?_, ?_, ?_, ?_, ?_⟩
  · norm_num [moveDirParams, N, S, E, W]
  · norm_num [moveDirParams, N, S, E, W]
  · norm_num [moveDirParams, N, S]
  · norm_num [moveDirParams, N]
  · norm_num [dirWall, N, S, E]
  · norm_num [dirWall, N, S, E, W]
  · norm_num [dirWall, N, S]
  · norm_num [dirWall, N]

/-- C9: on a transport failure during wake (nil body) or on an undecodable
response body, `awake` neither crashes nor propagates the error: it
returns the zero-value Survey with all four wall flags false, because
`ToReply` ignores the unmarshal error and yields the zero-value Reply. -/
theorem awake_zero_value_survey (e : String) (bs : List Nat)
    (decode : List Nat → Option Reply)
    (h1 : decode [] = none) (h2 : decode bs = none) :
    awake (Except.error e) decode = zeroSurvey ∧
    awake (Except.ok bs) decode = zeroSurvey ∧
    ToReply decode bs = zeroReply := by
  refine ⟨?_, ?_, ?_⟩
  · simp [awake, ToReply, h1, zeroReply]
  · simp [awake, ToReply, h2, zeroReply]
  · simp [ToReply, h2]

/-- Witness for C9: with a decoder that always fails, `awake` returns the
zero-value Survey on both a refused connection and a malformed body. -/
theorem awake_zero_value_survey_witness :
    awake (Except.error "connection refused") (fun _ => none) =
      zeroSurvey ∧
    awake (Except.ok [123]) (fun _ => none) = zeroSurvey ∧
    ToReply (fun _ => none) [123] = zeroReply :=
  awake_zero_value_survey "connection refused" [123] (fun _ => none) rfl rfl

/-- C10: a `Move` call that reaches the host and reads a reply never
returns a nil error: its outcome is either the victory sentinel or an
error built from the reply's Message field — even an ordinary successful
continue move carries a non-nil (possibly empty-message) error — and the
returned survey is the reply's survey. -/
theorem move_never_returns_nil_error (direction : String)
    (contents : List Nat) (decode : List Nat → Option Reply)
    (hv : validDirection direction = true) :
    (Move direction (Except.ok contents) decode).2 ≠ none ∧
    ((Move direction (Except.ok contents) decode).2 =
        some GoError.victory ∨
      (Move direction (Except.ok contents) decode).2 =
        some (GoError.msg (ToReply decode contents).Message)) ∧
    (Move direction (Except.ok contents) decode).1 =
      (ToReply decode contents).survey := by
  by_cases hV : (ToReply decode contents).Victory = true
  · refine ⟨?_, Or.inl ?_, ?_⟩ <;> simp [Move, hv, hV]
  · refine ⟨?_, Or.inr ?_, ?_⟩ <;> simp [Move, hv, hV]

/-- Witness for C10: a decoder yielding a non-victory reply still makes
`Move` return a non-nil error, built from the (empty) Message. -/
theorem move_never_returns_nil_error_witness :
    ((Move "right" (Except.ok [3]) (fun _ => none)).2 =
        some GoError.victory ∨
      (Move "right" (Except.ok [3]) (fun _ => none)).2 =
        some (GoError.msg (ToReply (fun _ => none) [3]).Message)) ∧
    (Move "right" (Except.ok [3]) (fun _ => none)).1 =
      (ToReply (fun _ => none) [3]).survey := by
  have h := move_never_returns_nil_error "right" [3] (fun _ => none)
    (by decide)
  exact ⟨h.2.1, h.2.2⟩

end GC6
